import Mathlib

/-
Verification of the risk-classification engine of bun-socket-scanner.

The definitions below are a shallow embedding of src/scanner.ts and
src/secrets.ts.  JavaScript numbers are modelled as rationals (only order
comparisons matter to the logic), fallible external queries as Option
values, and the thrown configuration error as an Except result.  The
Array.prototype.sort call in scanner.ts uses the comparator
(a, b) => key a - key b, which on a standards-conforming engine (sort is
required to be stable since ES2019) produces the stable ascending order by
key; it is embedded as a stable insertion sort by that key.
-/

namespace SocketScanner

/-- One security issue as read by scan in scanner.ts: the code only ever
reads issue.type, issue.value.category and issue.value.severity, each of
which may be absent. -/
structure Issue where
  type : Option String
  category : Option String
  severity : Option String
  deriving DecidableEq, Repr

/-- The three-level output scale of the classifier; safe produces no
advisory. -/
inductive RiskLevel where
  | safe
  | warn
  | fatal
  deriving DecidableEq, Repr

/-- JavaScript Array.prototype.indexOf on string arrays: the first index
holding s, and -1 when s does not occur. -/
def jsIndexOf (xs : List String) (s : String) : Int :=
  match xs with
  | [] => -1
  | x :: rest =>
    if x = s then 0
    else
      let r := jsIndexOf rest s
      if r = -1 then -1 else r + 1

/-- JavaScript Array.prototype.lastIndexOf on string arrays: the last
index holding s, and -1 when s does not occur. -/
def jsLastIndexOf (xs : List String) (s : String) : Int :=
  match xs with
  | [] => -1
  | x :: rest =>
    let r := jsLastIndexOf rest s
    if r = -1 then (if x = s then 0 else -1) else r + 1

/-- The severityOrder array of scanner.ts. -/
def severityOrder : List String := ["critical", "high", "middle", "low"]

/-- The sort key used by the comparator in scanner.ts:
severityOrder.indexOf(value?.severity ?? ''). -/
def severityKey (i : Issue) : Int :=
  jsIndexOf severityOrder (i.severity.getD "")

/-- Stable insertion into an ascending-by-key list: the new element, which
comes later in the input, goes after every element of equal key. -/
def insertAscByKey (key : Issue → Int) (x : Issue) : List Issue → List Issue
  | [] => [x]
  | y :: ys => if key x < key y then x :: y :: ys else y :: insertAscByKey key x ys

/-- Stable ascending sort by key, embedding the Array.prototype.sort call
with comparator (a, b) => severityKey a - severityKey b. -/
def stableSortAscByKey (key : Issue → Int) : List Issue → List Issue
  | [] => []
  | x :: xs => insertAscByKey key x (stableSortAscByKey key xs)

/-- The string rendered for one issue in the supply-chain description:
(value?.severity ?? '') ++ " " ++ (type ?? ''). -/
def issueMessage (i : Issue) : String :=
  i.severity.getD "" ++ " " ++ i.type.getD ""

/-- The duplicate filter of scanner.ts, verbatim: keep msg when
array.indexOf(msg) === array.lastIndexOf(msg), i.e. when msg occurs
exactly once in the whole messages array. -/
def dedupeMessages (msgs : List String) : List String :=
  msgs.filter (fun m => jsIndexOf msgs m = jsLastIndexOf msgs m)

/-- Result of the issue-based pass: level, description and the type of the
first issue after sorting. -/
structure Classification where
  level : RiskLevel
  description : String
  primaryIssueType : Option String
  deriving DecidableEq, Repr

/-- The issue-based pass of scan (scanner.ts lines 72-122).  The argument
is none when the issues query was rejected or returned success = false; in
that case, as when the list is empty, the state keeps its initial values
(safe, empty description, no primary issue type). -/
def issuePass (issuesOpt : Option (List Issue)) : Classification :=
  match issuesOpt with
  | none => ⟨RiskLevel.safe, "", none⟩
  | some issues =>
    if issues.length > 0 then
      let supplyChainIssues := issues.filter (fun i => i.category = some "supplyChainRisk")
      if supplyChainIssues.length > 0 then
        let sortedIssues := stableSortAscByKey severityKey supplyChainIssues
        let firstIssue := sortedIssues.head?
        let highestSeverity := firstIssue.bind Issue.severity
        let primaryIssueType := firstIssue.bind Issue.type
        let level :=
          if highestSeverity = some "critical" ∨ highestSeverity = some "high" then
            RiskLevel.fatal
          else
            RiskLevel.warn
        let messages := (sortedIssues.map issueMessage)
        ⟨level, "Supply chain risks found: " ++ String.intercalate ", " (dedupeMessages messages),
          primaryIssueType⟩
      else
        let issueTypes := issues.map (fun i => i.type.getD "unknown")
        ⟨RiskLevel.warn, "Security issues found: " ++ String.intercalate ", " issueTypes, none⟩
    else ⟨RiskLevel.safe, "", none⟩

/-- The description written when the score pass escalates to fatal. -/
def highRiskMsg (s : Rat) : String :=
  "High supply chain risk (score: " ++ toString s ++ ")"

/-- The description written when the score pass sets warn into an empty
description. -/
def moderateRiskMsg (s : Rat) : String :=
  "Moderate supply chain risk (score: " ++ toString s ++ ")"

/-- The score-based pass of scan (scanner.ts lines 125-144).  The score is
none when the score query was rejected, returned success = false, or
carried no supplyChainRisk.score value; then the pass is skipped. -/
def scorePass (fatalT warnT : Rat) (level : RiskLevel) (description : String) :
    Option Rat → RiskLevel × String
  | none => (level, description)
  | some riskScore =>
    if riskScore < fatalT then
      if level ≠ RiskLevel.fatal then (RiskLevel.fatal, highRiskMsg riskScore)
      else (level, description)
    else if riskScore < warnT then
      if level ≠ RiskLevel.fatal then
        (RiskLevel.warn, if description = "" then moderateRiskMsg riskScore else description)
      else (level, description)
    else (level, description)

/-- The whole per-package classification: issue pass then score pass. -/
def classify (fatalT warnT : Rat) (issuesOpt : Option (List Issue))
    (scoreOpt : Option Rat) : Classification :=
  let ip := issuePass issuesOpt
  let ls := scorePass fatalT warnT ip.level ip.description scoreOpt
  ⟨ls.1, ls.2, ip.primaryIssueType⟩

/-- An input package; only name and version are read by the core logic. -/
structure Package where
  name : String
  version : String
  deriving DecidableEq, Repr

/-- One output advisory. -/
structure Advisory where
  level : RiskLevel
  package : String
  description : String
  url : String
  deriving DecidableEq, Repr

/-- Whether pat occurs at the head of s. -/
def charsLead (pat s : List Char) : Bool :=
  match pat, s with
  | [], _ => true
  | _ :: _, [] => false
  | p :: ps, c :: cs => p = c && charsLead ps cs

/-- Whether pat occurs anywhere inside s. -/
def charsOccur (pat s : List Char) : Bool :=
  match s with
  | [] => charsLead pat []
  | _ :: cs => charsLead pat s || charsOccur pat cs

/-- JavaScript String.prototype.includes. -/
def strIncludes (s pat : String) : Bool :=
  charsOccur pat.data s.data

/-- The default advisory URL of scanner.ts. -/
def overviewUrl (pkg : Package) : String :=
  "https://socket.dev/npm/package/" ++ pkg.name ++ "/overview/" ++ pkg.version

/-- The issue-specific advisory URL of scanner.ts. -/
def issueUrl (t : String) : String :=
  "https://socket.dev/npm/issue/" ++ t

/-- URL selection of scanner.ts lines 147-153: the issue-specific URL is
used when the description contains the supply-chain marker and a non-empty
primaryIssueType was captured. -/
def advisoryUrl (pkg : Package) (description : String) : Option String → String
  | some t =>
    if strIncludes description "Supply chain risks found:" ∧ t ≠ "" then issueUrl t
    else overviewUrl pkg
  | none => overviewUrl pkg

/-- The synthesized fallback description of scanner.ts line 158. -/
def fallbackDescription (pkg : Package) : String :=
  "Security concerns detected for " ++ pkg.name ++ "@" ++ pkg.version

/-- Classification and advisory construction for one package
(scanner.ts lines 72-163): a non-safe level yields an advisory, safe
yields none. -/
def processPackage (fatalT warnT : Rat) (pkg : Package)
    (issuesOpt : Option (List Issue)) (scoreOpt : Option Rat) : Option Advisory :=
  let c := classify fatalT warnT issuesOpt scoreOpt
  if c.level ≠ RiskLevel.safe then
    some
      { level := c.level
        package := pkg.name
        description := if c.description ≠ "" then c.description else fallbackDescription pkg
        url := advisoryUrl pkg c.description c.primaryIssueType }
  else none

/-- Outcome of processing one package: either the body raised an
unexpected exception (caught by the catch block, which returns null), or
it ran with the given query outcomes (none encodes a rejected query or a
success = false response). -/
inductive PkgOutcome where
  | throws
  | queries (issuesOpt : Option (List Issue)) (scoreOpt : Option Rat)

/-- What one element of the Promise.allSettled batch contributes: null
for the catch block, otherwise the processPackage result. -/
def processOutcome (fatalT warnT : Rat) (pkg : Package) : PkgOutcome → Option Advisory
  | PkgOutcome.throws => none
  | PkgOutcome.queries i s => processPackage fatalT warnT pkg i s

/-- getApiKey of secrets.ts: a non-empty environment variable wins,
otherwise the secure store is consulted; a store failure or null store
answer is none. -/
def getApiKey (envKey storedKey : Option String) : Option String :=
  match envKey with
  | some k => if k = "" then storedKey else some k
  | none => storedKey

/-- The error message thrown by scan when no API key resolves. -/
def apiKeyErrorMsg : String :=
  "Socket.dev API key not found. Configure with: bun run src/index.ts set or set BUN_SOCKET_TOKEN environment variable"

/-- The scan orchestrator (scanner.ts lines 50-179): resolve the
credential, throw when it is absent or empty, otherwise process every
package and collect the non-null advisories.  Every element of the
Promise.allSettled batch fulfills (the body catches its own exceptions),
so the final loop collects exactly the non-null processOutcome values. -/
def scan (fatalT warnT : Rat) (envKey storedKey : Option String)
    (inputs : List (Package × PkgOutcome)) : Except String (List Advisory) :=
  let apiKey := getApiKey envKey storedKey
  if apiKey = none ∨ apiKey = some "" then
    Except.error apiKeyErrorMsg
  else
    Except.ok (inputs.filterMap (fun pi => processOutcome fatalT warnT pi.1 pi.2))

/-- Possible observations of Bun.env[envVar] through Number.parseFloat in
getThreshold: the variable is unset or the empty string, or parseFloat
returned NaN, or parseFloat returned the number q. -/
inductive EnvNum where
  | unset
  | nan
  | num (q : Rat)

/-- getThreshold of scanner.ts lines 11-22.  The Bool records whether
logger.warn was called (invalid override rejected). -/
def getThreshold (envValue : EnvNum) (defaultValue : Rat) : Rat × Bool :=
  match envValue with
  | EnvNum.unset => (defaultValue, false)
  | EnvNum.nan => (defaultValue, true)
  | EnvNum.num parsed =>
    if parsed < 0 ∨ parsed > 1 then (defaultValue, true) else (parsed, false)

/-- Default for FATAL_RISK_THRESHOLD. -/
def fatalDefault : Rat := 3 / 10

/-- Default for WARN_RISK_THRESHOLD. -/
def warnDefault : Rat := 1 / 2

/-- The module-scope resolution of both thresholds in scanner.ts. -/
def resolveThresholds (envFatal envWarn : EnvNum) : (Rat × Bool) × (Rat × Bool) :=
  (getThreshold envFatal fatalDefault, getThreshold envWarn warnDefault)

end SocketScanner

namespace SocketScanner

/-- The issue returned for a malicious package in the repository test
suite, category supplyChainRisk and severity critical. -/
def malwareIssue : Issue := ⟨some "malware_detected", some "supplyChainRisk", some "critical"⟩

/-- A supplyChainRisk issue whose severity field is absent. -/
def noSeverityIssue : Issue := ⟨some "obfuscated_file", some "supplyChainRisk", none⟩

/-- A supplyChainRisk issue of severity low. -/
def lowIssue : Issue := ⟨some "telemetry", some "supplyChainRisk", some "low"⟩

/-- A second supplyChainRisk issue of severity low, used twice to probe
the duplicate filter. -/
def dupIssue : Issue := ⟨some "shellScriptOverride", some "supplyChainRisk", some "low"⟩

/-- Modelled from the spec: the score-based pass exactly as the spec
states it (an issue-derived fatal level and its description are never
changed; a score below fatalThreshold escalates and overwrites the
description; a score below warnThreshold sets warn and writes its
description only when none was produced yet; otherwise nothing changes;
an absent score skips the pass). -/
def scorePassSpec (fatalT warnT : Rat) (level : RiskLevel) (description : String) :
    Option Rat → RiskLevel × String
  | none => (level, description)
  | some s =>
    if level = RiskLevel.fatal then (level, description)
    else if s < fatalT then (RiskLevel.fatal, highRiskMsg s)
    else if s < warnT then
      (RiskLevel.warn, if description = "" then moderateRiskMsg s else description)
    else (level, description)

/-- Rank of the three-level scale, safe below warn below fatal. -/
def levelRank : RiskLevel → Nat
  | RiskLevel.safe => 0
  | RiskLevel.warn => 1
  | RiskLevel.fatal => 2

/-- The test-suite malicious package. -/
def malPkg : Package := ⟨"malicious-package", "1.0.0"⟩

/-- A one-package batch whose issues query returns the malware issue and
whose score query carries no score. -/
def malInput : List (Package × PkgOutcome) :=
  [(malPkg, PkgOutcome.queries (some [malwareIssue]) none)]

/-- The advisory the scanner produces for malInput. -/
def malAdvisory : Advisory :=
  ⟨RiskLevel.fatal, "malicious-package",
    "Supply chain risks found: critical malware_detected",
    "https://socket.dev/npm/issue/malware_detected"⟩

/-- A string whose character list is nonempty is not the empty string,
even after appending. -/
theorem append_ne_empty (p x : String) (hp : p.data ≠ []) : p ++ x ≠ "" := by
  intro h
  have hd : p.data ++ x.data = ([] : List Char) := congrArg String.data h
  exact hp (List.append_eq_nil.mp hd).1

/-- Appending preserves a nonempty character list. -/
theorem data_append_ne_nil (a b : String) (ha : a.data ≠ []) : (a ++ b).data ≠ [] := by
  intro h
  exact ha (List.append_eq_nil.mp h).1

/-- The fatal score description is never empty. -/
theorem highRiskMsg_ne_empty (s : Rat) : highRiskMsg s ≠ "" :=
  append_ne_empty _ _ (data_append_ne_nil _ _ (by decide))

/-- The moderate score description is never empty. -/
theorem moderateRiskMsg_ne_empty (s : Rat) : moderateRiskMsg s ≠ "" :=
  append_ne_empty _ _ (data_append_ne_nil _ _ (by decide))

/-- Shape of the issue pass output: either the initial state survives, or
the description carries one of the two nonempty markers. -/
theorem issuePass_shape (io : Option (List Issue)) :
    ((issuePass io).level = RiskLevel.safe ∧ (issuePass io).description = "") ∨
    (∃ x, (issuePass io).description = "Supply chain risks found: " ++ x) ∨
    (∃ x, (issuePass io).description = "Security issues found: " ++ x) := by
  cases io with
  | none => exact Or.inl ⟨rfl, rfl⟩
  | some issues =>
    simp only [issuePass]
    split
    · split
      · exact Or.inr (Or.inl ⟨_, rfl⟩)
      · exact Or.inr (Or.inr ⟨_, rfl⟩)
    · exact Or.inl ⟨rfl, rfl⟩

/-- A non-safe issue-pass level comes with a nonempty description. -/
theorem issuePass_desc_ne (io : Option (List Issue)) :
    (issuePass io).level ≠ RiskLevel.safe → (issuePass io).description ≠ "" := by
  intro h
  rcases issuePass_shape io with ⟨hl, _⟩ | ⟨x, hx⟩ | ⟨x, hx⟩
  · exact absurd hl h
  · rw [hx]; exact append_ne_empty _ _ (by decide)
  · rw [hx]; exact append_ne_empty _ _ (by decide)

/-- The score pass keeps the invariant that a non-safe level has a
nonempty description. -/
theorem scorePass_desc_ne (fT wT : Rat) (lvl : RiskLevel) (desc : String) (so : Option Rat)
    (hbase : lvl ≠ RiskLevel.safe → desc ≠ "") :
    (scorePass fT wT lvl desc so).1 ≠ RiskLevel.safe → (scorePass fT wT lvl desc so).2 ≠ "" := by
  cases so with
  | none => exact hbase
  | some s =>
    simp only [scorePass]
    split
    · split
      · intro _; exact highRiskMsg_ne_empty s
      · exact hbase
    · split
      · split
        · intro _; split
          · exact moderateRiskMsg_ne_empty s
          · assumption
        · exact hbase
      · exact hbase

/-- A non-safe classification has a nonempty description. -/
theorem classify_desc_ne (fT wT : Rat) (io : Option (List Issue)) (so : Option Rat) :
    (classify fT wT io so).level ≠ RiskLevel.safe →
      (classify fT wT io so).description ≠ "" :=
  scorePass_desc_ne fT wT (issuePass io).level (issuePass io).description so
    (issuePass_desc_ne io)

end SocketScanner

namespace SocketScanner

/-- C1: the claim says any issue list with at least one critical or high
supplyChainRisk issue classifies as fatal regardless of score; evaluating
the embedded code on a list holding a critical issue together with a
severity-less supplyChainRisk issue (score absent) yields warn, because
Array.indexOf gives the unrecognized severity index -1, sorting it first
and making it the decision severity. -/
theorem c1_critical_with_unknown_severity_is_warn :
    (classify fatalDefault warnDefault (some [malwareIssue, noSeverityIssue]) none).level
      = RiskLevel.warn := by rfl

/-- C2: the claim says severity values outside the fixed set sort after
low (lowest priority); evaluating the embedded sort shows an issue with
absent severity sorts before a low-severity one (indeed first overall),
and it becomes the issue supplying primaryIssueType. -/
theorem c2_unknown_severity_sorts_first :
    stableSortAscByKey severityKey [lowIssue, noSeverityIssue]
        = [noSeverityIssue, lowIssue] ∧
    (issuePass (some [lowIssue, noSeverityIssue])).primaryIssueType
        = some "obfuscated_file" :=
  ⟨rfl, rfl⟩

/-- C3: the claim says duplicate severity-type entries are de-duplicated
so each distinct entry still appears exactly once; evaluating the embedded
code on two identical low shellScriptOverride entries plus one low
telemetry entry shows the duplicated entry is removed entirely (the filter
keeps only entries whose indexOf equals their lastIndexOf). -/
theorem c3_duplicate_entries_dropped :
    (issuePass (some [dupIssue, dupIssue, lowIssue])).description
      = "Supply chain risks found: low telemetry" := by rfl

/-- C4: for every present score the score pass behaves exactly as the
spec states: an issue-derived fatal level and its description are never
changed; a score below fatalThreshold escalates to fatal and overwrites
the description; otherwise a score below warnThreshold sets warn and
writes its description only when the issue pass produced none; otherwise
level and description are unchanged; an absent score skips the pass. -/
theorem c4_score_pass_matches_spec (fatalT warnT : Rat) (level : RiskLevel)
    (description : String) (so : Option Rat) :
    scorePass fatalT warnT level description so
      = scorePassSpec fatalT warnT level description so := by
  cases so with
  | none => rfl
  | some s =>
    cases level <;> simp only [scorePass, scorePassSpec] <;> split_ifs <;> simp_all

/-- Level of the score pass as a closed formula over the incoming level
and the two thresholds. -/
theorem scorePass_level_formula (fT wT : Rat) (lvl : RiskLevel) (desc : String) (s : Rat) :
    (scorePass fT wT lvl desc (some s)).1 =
      if s < fT then RiskLevel.fatal
      else if s < wT then (if lvl = RiskLevel.fatal then RiskLevel.fatal else RiskLevel.warn)
      else lvl := by
  simp only [scorePass]
  split_ifs <;> simp_all

/-- C5: for fixed issues and thresholds, decreasing a present score never
decreases the resulting severity on the scale safe, warn, fatal. -/
theorem c5_score_monotone (fT wT : Rat) (io : Option (List Issue)) (s1 s2 : Rat)
    (h : s2 ≤ s1) :
    levelRank (classify fT wT io (some s1)).level
      ≤ levelRank (classify fT wT io (some s2)).level := by
  have e1 : (classify fT wT io (some s1)).level
      = (scorePass fT wT (issuePass io).level (issuePass io).description (some s1)).1 := rfl
  have e2 : (classify fT wT io (some s2)).level
      = (scorePass fT wT (issuePass io).level (issuePass io).description (some s2)).1 := rfl
  rw [e1, e2, scorePass_level_formula, scorePass_level_formula]
  split_ifs with h1 h2 h3 h4 h5 <;>
    first
      | exact le_refl _
      | (exfalso; linarith)
      | (cases hl : (issuePass io).level <;> simp_all [levelRank])

/-- Witness for C5 at thresholds 0.3 and 0.5, no issues, scores 1 and 0. -/
theorem c5_score_monotone_witness :
    levelRank (classify fatalDefault warnDefault none (some 1)).level
      ≤ levelRank (classify fatalDefault warnDefault none (some 0)).level :=
  c5_score_monotone fatalDefault warnDefault none 1 0 (by norm_num)

/-- C6: per-package failure isolation: a package whose two queries both
failed classifies safe and contributes no advisory, an unexpected
exception in one package body contributes no advisory, and with a
resolvable credential scan returns the collected advisories of the whole
batch without throwing, whatever each package outcome was. -/
theorem c6_failure_isolation (fT wT : Rat) (pkg : Package) (key : String)
    (stored : Option String) (inputs : List (Package × PkgOutcome)) (hk : key ≠ "") :
    processOutcome fT wT pkg (PkgOutcome.queries none none) = none ∧
    processOutcome fT wT pkg PkgOutcome.throws = none ∧
    (classify fT wT none none).level = RiskLevel.safe ∧
    scan fT wT (some key) stored inputs
      = Except.ok (inputs.filterMap fun pi => processOutcome fT wT pi.1 pi.2) := by
  refine ⟨rfl, rfl, rfl, ?_⟩
  simp [scan, getApiKey, hk]

/-- Witness for C6 at a concrete package, key and empty batch. -/
theorem c6_failure_isolation_witness :
    processOutcome fatalDefault warnDefault ⟨"left-pad", "1.0.0"⟩
        (PkgOutcome.queries none none) = none ∧
    processOutcome fatalDefault warnDefault ⟨"left-pad", "1.0.0"⟩ PkgOutcome.throws = none ∧
    (classify fatalDefault warnDefault none none).level = RiskLevel.safe ∧
    scan fatalDefault warnDefault (some "k") none []
      = Except.ok (([] : List (Package × PkgOutcome)).filterMap
          fun pi => processOutcome fatalDefault warnDefault pi.1 pi.2) :=
  c6_failure_isolation fatalDefault warnDefault ⟨"left-pad", "1.0.0"⟩ "k" none [] (by decide)

/-- C7: when neither the environment override nor the secure store yields
a non-empty credential, scan fails the whole call with the descriptive
configuration error for every input batch (including the empty one); and a
non-empty environment credential always takes precedence over the stored
one. -/
theorem c7_credential_policy (fT wT : Rat) (envKey storedKey : Option String)
    (inputs : List (Package × PkgOutcome))
    (henv : envKey = none ∨ envKey = some "")
    (hstore : storedKey = none ∨ storedKey = some "") :
    scan fT wT envKey storedKey inputs = Except.error apiKeyErrorMsg ∧
    ∀ k : String, k ≠ "" → getApiKey (some k) storedKey = some k := by
  constructor
  · rcases henv with h | h <;> rcases hstore with h2 | h2 <;> subst h <;> subst h2 <;> rfl
  · intro k hkk
    simp [getApiKey, hkk]

/-- Witness for C7 with an empty-string environment value and an absent
stored key. -/
theorem c7_credential_policy_witness :
    scan fatalDefault warnDefault (some "") none [] = Except.error apiKeyErrorMsg ∧
    ∀ k : String, k ≠ "" → getApiKey (some k) none = some k :=
  c7_credential_policy fatalDefault warnDefault (some "") none [] (Or.inr rfl) (Or.inl rfl)

end SocketScanner

namespace SocketScanner

/-- C8 counterexample: both overrides 0.8 and 0.2 are numeric and inside
the unit interval, so both are accepted without warning, yet the resolved
configuration violates the claimed invariant fatalThreshold less than
warnThreshold. -/
theorem c8_invariant_violated :
    resolveThresholds (EnvNum.num (4 / 5)) (EnvNum.num (1 / 5))
        = ((4 / 5, false), (1 / 5, false)) ∧
    ¬ ((resolveThresholds (EnvNum.num (4 / 5)) (EnvNum.num (1 / 5))).1.1
        < (resolveThresholds (EnvNum.num (4 / 5)) (EnvNum.num (1 / 5))).2.1) := by
  constructor
  · norm_num [resolveThresholds, getThreshold]
  · norm_num [resolveThresholds, getThreshold]

/-- C8 amended: each override is validated individually: an unset or
empty variable silently keeps the default, a NaN or out-of-range value is
rejected with a recorded warning (never a thrown error) and the default
substituted, an in-range value is accepted as-is; every resolved threshold
lies in the unit interval when the default does; the defaults 0.3 and 0.5
satisfy the ordering invariant, but it is not enforced between the two
resolved values. -/
theorem c8_per_value_validation (d q : Rat) (e : EnvNum) (hd0 : 0 ≤ d) (hd1 : d ≤ 1) :
    getThreshold EnvNum.unset d = (d, false) ∧
    getThreshold EnvNum.nan d = (d, true) ∧
    ((q < 0 ∨ q > 1) → getThreshold (EnvNum.num q) d = (d, true)) ∧
    (0 ≤ q → q ≤ 1 → getThreshold (EnvNum.num q) d = (q, false)) ∧
    0 ≤ (getThreshold e d).1 ∧ (getThreshold e d).1 ≤ 1 ∧
    0 ≤ fatalDefault ∧ fatalDefault < warnDefault ∧ warnDefault ≤ 1 := by
  refine ⟨rfl, rfl, ?_, ?_, ?_, ?_,
    by norm_num [fatalDefault], by norm_num [fatalDefault, warnDefault],
    by norm_num [warnDefault]⟩
  · intro h
    simp [getThreshold, h]
  · intro h0 h1
    have hno : ¬ (q < 0 ∨ q > 1) := by
      push_neg
      exact ⟨h0, h1⟩
    simp [getThreshold, hno]
  · cases e with
    | unset => exact hd0
    | nan => exact hd0
    | num p =>
      simp only [getThreshold]
      split_ifs with hp
      · exact hd0
      · push_neg at hp
        exact hp.1
  · cases e with
    | unset => exact hd1
    | nan => exact hd1
    | num p =>
      simp only [getThreshold]
      split_ifs with hp
      · exact hd1
      · push_neg at hp
        exact hp.2

/-- Witness for C8 amended: default 0.3, override 2 is out of range. -/
theorem c8_per_value_validation_witness :
    getThreshold EnvNum.unset (3 / 10) = (3 / 10, false) ∧
    getThreshold EnvNum.nan (3 / 10) = (3 / 10, true) ∧
    (((2 : Rat) < 0 ∨ (2 : Rat) > 1) → getThreshold (EnvNum.num 2) (3 / 10) = (3 / 10, true)) ∧
    ((0 : Rat) ≤ 2 → (2 : Rat) ≤ 1 → getThreshold (EnvNum.num 2) (3 / 10) = (2, false)) ∧
    0 ≤ (getThreshold (EnvNum.num 2) (3 / 10)).1 ∧
    (getThreshold (EnvNum.num 2) (3 / 10)).1 ≤ 1 ∧
    0 ≤ fatalDefault ∧ fatalDefault < warnDefault ∧ warnDefault ≤ 1 :=
  c8_per_value_validation (3 / 10) 2 (EnvNum.num 2) (by norm_num) (by norm_num)

/-- Every value of filterMap is already produced by a sublist on which
the function succeeds everywhere, one input element per output element. -/
theorem exists_sublist_filterMap {α β : Type} (f : α → Option β) (l : List α) :
    ∃ c : List α, c.Sublist l ∧ c.length = (l.filterMap f).length ∧
      c.filterMap f = l.filterMap f := by
  induction l with
  | nil => exact ⟨[], List.Sublist.refl _, rfl, rfl⟩
  | cons x xs ih =>
    obtain ⟨c, hs, hl, he⟩ := ih
    cases hfx : f x with
    | none =>
      refine ⟨c, List.Sublist.cons x hs, ?_, ?_⟩
      · rw [hl]
        simp [List.filterMap_cons, hfx]
      · rw [he]
        simp [List.filterMap_cons, hfx]
    | some b =>
      refine ⟨x :: c, List.Sublist.cons₂ x hs, ?_, ?_⟩
      · simp [List.filterMap_cons, hfx, hl]
      · simp [List.filterMap_cons, hfx, he]

/-- An advisory actually produced for a package never carries the safe
level: it is warn or fatal. -/
theorem processOutcome_level (fT wT : Rat) (pkg : Package) (o : PkgOutcome) (a : Advisory)
    (h : processOutcome fT wT pkg o = some a) :
    a.level = RiskLevel.warn ∨ a.level = RiskLevel.fatal := by
  cases o with
  | throws => simp [processOutcome] at h
  | queries i s =>
    simp only [processOutcome, processPackage] at h
    split at h
    · have ha := Option.some.inj h
      cases hc : (classify fT wT i s).level with
      | safe => simp_all
      | warn =>
        left
        rw [← ha]
        exact hc
      | fatal =>
        right
        rw [← ha]
        exact hc
    · simp at h

/-- C9: whatever scan returns successfully, every advisory is warn or
fatal (safe packages produce none), the output is no longer than the
input, and each advisory comes from a distinct input package: a sublist of
the inputs of exactly the output length reproduces the whole output. -/
theorem c9_output_invariant (fT wT : Rat) (envKey storedKey : Option String)
    (inputs : List (Package × PkgOutcome)) (advisories : List Advisory)
    (h : scan fT wT envKey storedKey inputs = Except.ok advisories) :
    advisories.length ≤ inputs.length ∧
    (∀ a ∈ advisories, a.level = RiskLevel.warn ∨ a.level = RiskLevel.fatal) ∧
    ∃ flagged : List (Package × PkgOutcome), flagged.Sublist inputs ∧
      flagged.length = advisories.length ∧
      flagged.filterMap (fun pi => processOutcome fT wT pi.1 pi.2) = advisories := by
  have hadv : advisories = inputs.filterMap (fun pi => processOutcome fT wT pi.1 pi.2) := by
    simp only [scan] at h
    split at h
    · exact Except.noConfusion h
    · exact (Except.ok.inj h).symm
  subst hadv
  refine ⟨List.length_filterMap_le _ _, ?_, ?_⟩
  · intro a ha
    obtain ⟨pi, _, hpi⟩ := List.mem_filterMap.mp ha
    exact processOutcome_level fT wT pi.1 pi.2 a hpi
  · obtain ⟨c, hs, hl, he⟩ := exists_sublist_filterMap _ inputs
    exact ⟨c, hs, hl, he⟩

/-- Witness for C9 on a one-package batch yielding one fatal advisory. -/
theorem c9_output_invariant_witness :
    ([malAdvisory] : List Advisory).length ≤ malInput.length ∧
    (∀ a ∈ ([malAdvisory] : List Advisory),
      a.level = RiskLevel.warn ∨ a.level = RiskLevel.fatal) ∧
    ∃ flagged : List (Package × PkgOutcome), flagged.Sublist malInput ∧
      flagged.length = ([malAdvisory] : List Advisory).length ∧
      flagged.filterMap (fun pi => processOutcome fatalDefault warnDefault pi.1 pi.2)
        = [malAdvisory] :=
  c9_output_invariant fatalDefault warnDefault (some "k") none malInput [malAdvisory] (by rfl)

/-- C10: whenever an advisory is produced, the classification passes have
already produced a nonempty description and the advisory carries exactly
it, so the synthesized fallback text is never emitted. -/
theorem c10_fallback_unreachable (fT wT : Rat) (pkg : Package)
    (io : Option (List Issue)) (so : Option Rat) (a : Advisory)
    (h : processPackage fT wT pkg io so = some a) :
    (classify fT wT io so).description ≠ "" ∧
    a.description = (classify fT wT io so).description := by
  have hlvl : (classify fT wT io so).level ≠ RiskLevel.safe := by
    intro hsafe
    simp [processPackage, hsafe] at h
  have hdesc := classify_desc_ne fT wT io so hlvl
  refine ⟨hdesc, ?_⟩
  simp only [processPackage] at h
  rw [if_pos hlvl] at h
  have ha := Option.some.inj h
  rw [← ha]
  show (if (classify fT wT io so).description ≠ "" then (classify fT wT io so).description
      else fallbackDescription pkg) = (classify fT wT io so).description
  rw [if_pos hdesc]

/-- Witness for C10 on the malicious package input. -/
theorem c10_fallback_unreachable_witness :
    (classify fatalDefault warnDefault (some [malwareIssue]) none).description ≠ "" ∧
    malAdvisory.description
      = (classify fatalDefault warnDefault (some [malwareIssue]) none).description :=
  c10_fallback_unreachable fatalDefault warnDefault malPkg (some [malwareIssue]) none
    malAdvisory (by rfl)

end SocketScanner
